import Mathlib

set_option maxRecDepth 100000

/-!
Verification of the Flask SHA-256 hashing service (`src/app.py`).

The development shallowly embeds the program's observable behaviour:

* a reference SHA-256 over byte lists (`sha256Hex`), standing for
  `hashlib.sha256(...).hexdigest()`;
* UTF-8 encoding of strings (`utf8Encode`), standing for `str.encode()`;
* the `/hash` handler (`generate_hash`), acting on a model of parsed JSON
  request bodies and returning either an invocation record (HTTP response,
  span attributes, log lines) or an exception;
* the `/health` handler (`health`);
* the module-level telemetry bootstrap (`bootstrap`), mapping the
  `OTEL_EXPORTER_OTLP_ENDPOINT` environment value to the observability
  state it constructs.
-/

/-! ## SHA-256 over byte lists (reference for `hashlib.sha256`) -/

/-- Truncation to a 32-bit word. -/
def w32 (n : Nat) : Nat := n % 4294967296

/-- Right rotation of a 32-bit word by `n` bits. -/
def rotr (n x : Nat) : Nat := w32 ((x >>> n) ||| (x <<< (32 - n)))

def bigSigma0 (x : Nat) : Nat := rotr 2 x ^^^ rotr 13 x ^^^ rotr 22 x

def bigSigma1 (x : Nat) : Nat := rotr 6 x ^^^ rotr 11 x ^^^ rotr 25 x

def smallSigma0 (x : Nat) : Nat := rotr 7 x ^^^ rotr 18 x ^^^ (x >>> 3)

def smallSigma1 (x : Nat) : Nat := rotr 17 x ^^^ rotr 19 x ^^^ (x >>> 10)

def chFn (x y z : Nat) : Nat := (x &&& y) ^^^ ((x ^^^ 4294967295) &&& z)

def majFn (x y z : Nat) : Nat := (x &&& y) ^^^ (x &&& z) ^^^ (y &&& z)

/-- The 64 SHA-256 round constants (FIPS 180-4, written in decimal). -/
def sha256K : List Nat :=
  [1116352408, 1899447441, 3049323471, 3921009573,
   961987163, 1508970993, 2453635748, 2870763221,
   3624381080, 310598401, 607225278, 1426881987,
   1925078388, 2162078206, 2614888103, 3248222580,
   3835390401, 4022224774, 264347078, 604807628,
   770255983, 1249150122, 1555081692, 1996064986,
   2554220882, 2821834349, 2952996808, 3210313671,
   3336571891, 3584528711, 113926993, 338241895,
   666307205, 773529912, 1294757372, 1396182291,
   1695183700, 1986661051, 2177026350, 2456956037,
   2730485921, 2820302411, 3259730800, 3345764771,
   3516065817, 3600352804, 4094571909, 275423344,
   430227734, 506948616, 659060556, 883997877,
   958139571, 1322822218, 1537002063, 1747873779,
   1955562222, 2024104815, 2227730452, 2361852424,
   2428436474, 2756734187, 3204031479, 3329325298]

/-- The SHA-256 working state: eight 32-bit words. -/
structure Hash8 where
  h0 : Nat
  h1 : Nat
  h2 : Nat
  h3 : Nat
  h4 : Nat
  h5 : Nat
  h6 : Nat
  h7 : Nat
deriving DecidableEq, Repr

/-- The SHA-256 initial hash value (FIPS 180-4, written in decimal). -/
def initH : Hash8 :=
  ⟨1779033703, 3144134277, 1013904242, 2773480762,
   1359893119, 2600822924, 528734635, 1541459225⟩

/-- One SHA-256 compression round; `wk` is the (schedule word, round constant) pair. -/
def sha256Round (st : Hash8) (wk : Nat × Nat) : Hash8 :=
  let t1 := w32 (st.h7 + bigSigma1 st.h4 + chFn st.h4 st.h5 st.h6 + wk.2 + wk.1)
  let t2 := w32 (bigSigma0 st.h0 + majFn st.h0 st.h1 st.h2)
  ⟨w32 (t1 + t2), st.h0, st.h1, st.h2, w32 (st.h3 + t1), st.h4, st.h5, st.h6⟩

/-- Extend a 16-word schedule by `n` further words. -/
def extendSchedule : Nat → List Nat → List Nat
  | 0, ws => ws
  | n + 1, ws =>
    let len := ws.length
    let t := w32 (smallSigma1 (ws.getD (len - 2) 0) + ws.getD (len - 7) 0 +
                  smallSigma0 (ws.getD (len - 15) 0) + ws.getD (len - 16) 0)
    extendSchedule n (ws ++ [t])

/-- Group a byte list into big-endian 32-bit words. -/
def bytesToWords : List Nat → List Nat
  | b0 :: b1 :: b2 :: b3 :: rest =>
    (b0 * 16777216 + b1 * 65536 + b2 * 256 + b3) :: bytesToWords rest
  | _ => []

/-- Compress one 64-byte block into the running state. -/
def processBlock (st : Hash8) (block : List Nat) : Hash8 :=
  let ws := extendSchedule 48 (bytesToWords block)
  let r := List.foldl sha256Round st (ws.zip sha256K)
  ⟨w32 (st.h0 + r.h0), w32 (st.h1 + r.h1), w32 (st.h2 + r.h2), w32 (st.h3 + r.h3),
   w32 (st.h4 + r.h4), w32 (st.h5 + r.h5), w32 (st.h6 + r.h6), w32 (st.h7 + r.h7)⟩

/-- Big-endian rendering of `v` on `n` bytes. -/
def natToBytesBE : Nat → Nat → List Nat
  | 0, _ => []
  | n + 1, v => natToBytesBE n (v / 256) ++ [v % 256]

/-- SHA-256 padding: append `0x80`, zero-pad to 56 mod 64, append the 64-bit bit length. -/
def padMessage (msg : List Nat) : List Nat :=
  let l := msg.length
  let zeros := (120 - (l + 1) % 64) % 64
  msg ++ 128 :: (List.replicate zeros 0 ++ natToBytesBE 8 (8 * l))

/-- Split a byte list into 64-byte chunks (`fuel` bounds the recursion). -/
def chunksAux : Nat → List Nat → List (List Nat)
  | 0, _ => []
  | _ + 1, [] => []
  | fuel + 1, b :: rest => ((b :: rest).take 64) :: chunksAux fuel ((b :: rest).drop 64)

def chunks64 (bs : List Nat) : List (List Nat) := chunksAux bs.length bs

/-- The SHA-256 digest of a byte list, as eight 32-bit words. -/
def sha256Words (msg : List Nat) : Hash8 :=
  List.foldl processBlock initH (chunks64 (padMessage msg))

/-- Lowercase hexadecimal digit for `n < 16`. -/
def hexDigit (n : Nat) : Char :=
  if n < 10 then Char.ofNat (48 + n) else Char.ofNat (87 + n)

/-- Fixed-width (8 hex characters) rendering of a 32-bit word. -/
def toHexWord (w : Nat) : List Char :=
  [hexDigit (w / 268435456 % 16), hexDigit (w / 16777216 % 16),
   hexDigit (w / 1048576 % 16), hexDigit (w / 65536 % 16),
   hexDigit (w / 4096 % 16), hexDigit (w / 256 % 16),
   hexDigit (w / 16 % 16), hexDigit (w % 16)]

def hashStateHex (st : Hash8) : List Char :=
  toHexWord st.h0 ++ toHexWord st.h1 ++ toHexWord st.h2 ++ toHexWord st.h3 ++
  toHexWord st.h4 ++ toHexWord st.h5 ++ toHexWord st.h6 ++ toHexWord st.h7

/-- `hashlib.sha256(msg).hexdigest()`: the lowercase-hex SHA-256 digest of a byte list. -/
def sha256Hex (msg : List Nat) : String := ⟨hashStateHex (sha256Words msg)⟩

/-! ## UTF-8 encoding (reference for `str.encode()`) -/

/-- UTF-8 encoding of a single character (code point). -/
def utf8EncodeChar (c : Char) : List Nat :=
  let n := c.toNat
  if n < 128 then [n]
  else if n < 2048 then [192 ||| (n >>> 6), 128 ||| (n &&& 63)]
  else if n < 65536 then
    [224 ||| (n >>> 12), 128 ||| ((n >>> 6) &&& 63), 128 ||| (n &&& 63)]
  else
    [240 ||| (n >>> 18), 128 ||| ((n >>> 12) &&& 63),
     128 ||| ((n >>> 6) &&& 63), 128 ||| (n &&& 63)]

def utf8EncodeList : List Char → List Nat
  | [] => []
  | c :: cs => utf8EncodeChar c ++ utf8EncodeList cs

/-- `s.encode()`: the UTF-8 byte encoding of a string. -/
def utf8Encode (s : String) : List Nat := utf8EncodeList s.data

/-- `hashlib.sha256(input_text.encode()).hexdigest()` as a function of the input string. -/
def hashString (s : String) : String := sha256Hex (utf8Encode s)

/-! ## JSON values and the `/hash` request/response model -/

/-- A parsed JSON value, as produced by `request.get_json()`. -/
inductive Json where
  | null : Json
  | bool : Bool → Json
  | num : Int → Json
  | str : String → Json
  | arr : List Json → Json
  | obj : List (String × Json) → Json

/-- An attribute value attached to a span. -/
inductive SpanValue where
  | natVal : Nat → SpanValue
  | strVal : String → SpanValue
deriving DecidableEq, Repr

structure HttpResponse where
  status : Nat
  body : Json

/-- Everything one invocation of the `/hash` handler observably does:
the HTTP response, the span attributes it sets, and the log lines it emits. -/
structure HashInvocation where
  response : HttpResponse
  spanAttributes : List (String × SpanValue)
  logs : List String

/-- Python `dict` lookup on the field list of a JSON object. -/
def lookupField : List (String × Json) → String → Option Json
  | [], _ => none
  | (k, v) :: rest, key => if k == key then some v else lookupField rest key

/-- `"*" * len(input_text)`: the masked rendering of the input. -/
def maskInput (s : String) : String := ⟨List.replicate s.length '*'⟩

/-- The `/hash` handler (`generate_hash` in `src/app.py`).

`body` is the value `request.get_json()` parsed.  On a JSON object the code
runs `data.get("text", "")`; on any other value the `.get` attribute lookup
raises (`AttributeError`), modelled as `Except.error`.  A present `"text"`
value that is not a string also raises before a response is produced
(`len`/`encode` fail on non-`str` values), likewise modelled as an error. -/
def generate_hash (body : Json) : Except String HashInvocation :=
  match body with
  | Json.obj fields =>
    match (lookupField fields "text").getD (Json.str "") with
    | Json.str input_text =>
      let masked := maskInput input_text
      let hash_hex := hashString input_text
      Except.ok
        { response :=
            ⟨200, Json.obj [("input", Json.str input_text),
                            ("hash", Json.str hash_hex),
                            ("algorithm", Json.str "SHA256")]⟩
          spanAttributes :=
            [("input.length", SpanValue.natVal input_text.length),
             ("hash.algorithm", SpanValue.strVal "SHA256")]
          logs :=
            ["Generating hash for input: " ++ masked ++ " (length: " ++
               toString input_text.length ++ ")",
             "Generated hash: " ++ hash_hex.take 16 ++ "..."] }
    | _ => Except.error "TypeError: the text value is not a string"
  | _ => Except.error "AttributeError: the JSON body is not an object and has no method get"

/-- The `/health` handler: unconditionally `200 {"status": "healthy"}`. -/
def health : HttpResponse := ⟨200, Json.obj [("status", Json.str "healthy")]⟩

/-! ## Telemetry bootstrap (module level of `src/app.py`) -/

/-- The observability state the module-level bootstrap constructs. -/
structure BootstrapState where
  traceExporters : Nat
  logExporters : Nat
  metricExporters : Nat
  meterProviderInstalled : Bool
  meterReaders : Nat
  loggingHandlerAttached : Bool
  warnings : List String
  infos : List String
  flaskInstrumented : Bool
  systemMetricsInstrumented : Bool
deriving DecidableEq, Repr

/-- Python truthiness of `os.getenv(...)`: `None` and `""` are falsy. -/
def isTruthy : Option String → Bool
  | none => false
  | some s => !(s == "")

def exportDisabledWarning : String :=
  "OTEL_EXPORTER_OTLP_ENDPOINT not configured. " ++
  "OpenTelemetry traces and logs will not be exported. " ++
  "Please configure OTEL environment variables in your .env file."

/-- The module-level bootstrap as a function of `OTEL_EXPORTER_OTLP_ENDPOINT`.

With a truthy endpoint it builds one OTLP exporter per signal (traces, logs,
metrics), installs a `MeterProvider` with one periodic reader, attaches the
OpenTelemetry logging handler, and enables system metrics; otherwise it emits
one warning, installs a `MeterProvider` with no readers, and builds no
exporters.  Flask instrumentation happens in both branches. -/
def bootstrap (otelEndpoint : Option String) : BootstrapState :=
  if isTruthy otelEndpoint then
    { traceExporters := 1
      logExporters := 1
      metricExporters := 1
      meterProviderInstalled := true
      meterReaders := 1
      loggingHandlerAttached := true
      warnings := []
      infos := ["Configuring OTLP exporters with endpoint: " ++ otelEndpoint.getD ""]
      flaskInstrumented := true
      systemMetricsInstrumented := true }
  else
    { traceExporters := 0
      logExporters := 0
      metricExporters := 0
      meterProviderInstalled := true
      meterReaders := 0
      loggingHandlerAttached := false
      warnings := [exportDisabledWarning]
      infos := []
      flaskInstrumented := true
      systemMetricsInstrumented := false }

/-! ## Routing -/

inductive Route where
  | hashRoute : Json → Route
  | healthRoute : Route

/-- Dispatch a request against the running app.  The handlers never read the
bootstrap state to build their responses (spans and exporters only affect
telemetry), which the theorems below make explicit. -/
def handleRequest (_cfg : BootstrapState) : Route → Except String HttpResponse
  | Route.hashRoute body => (generate_hash body).map (fun inv => inv.response)
  | Route.healthRoute => Except.ok health

/-! ## Extractors used by the theorems -/

def invStatusOf : Except String HashInvocation → Option Nat
  | Except.ok inv => some inv.response.status
  | Except.error _ => none

def respStatusOf : Except String HttpResponse → Option Nat
  | Except.ok r => some r.status
  | Except.error _ => none

def bodyFieldOf (r : Except String HashInvocation) (key : String) : Option Json :=
  match r with
  | Except.ok inv =>
    match inv.response.body with
    | Json.obj fs => lookupField fs key
    | _ => none
  | Except.error _ => none

def spanAttrOf (r : Except String HashInvocation) (key : String) : Option SpanValue :=
  match r with
  | Except.ok inv => (inv.spanAttributes.find? (fun p => p.1 == key)).map (fun p => p.2)
  | Except.error _ => none

def logsOf : Except String HashInvocation → Option (List String)
  | Except.ok inv => some inv.logs
  | Except.error _ => none

def isJsonObj : Json → Bool
  | Json.obj _ => true
  | _ => false

/-- Does `needle` occur at the head of `hay`? -/
def segStarts : List Char → List Char → Bool
  | _, [] => true
  | [], _ :: _ => false
  | a :: as, b :: bs => a == b && segStarts as bs

/-- Python's `in` on strings (as character lists): contiguous-substring test. -/
def containsSeg : List Char → List Char → Bool
  | [], needle => needle.isEmpty
  | h :: t, needle => segStarts (h :: t) needle || containsSeg t needle

/-- Is `c` a lowercase hexadecimal digit? -/
def isLowerHexDigit (c : Char) : Bool :=
  (48 ≤ c.toNat && c.toNat ≤ 57) || (97 ≤ c.toNat && c.toNat ≤ 102)

/-! ## Helper lemmas -/

theorem hashStateHex_length (st : Hash8) : (hashStateHex st).length = 64 := by
  simp [hashStateHex, toHexWord]

theorem sha256Hex_length (msg : List Nat) : (sha256Hex msg).length = 64 :=
  hashStateHex_length _

theorem hexDigit_isLower : ∀ n < 16, isLowerHexDigit (hexDigit n) = true := by decide

theorem toHexWord_lower (w : Nat) : (toHexWord w).all isLowerHexDigit = true := by
  have h : ∀ x : Nat, isLowerHexDigit (hexDigit (x % 16)) = true :=
    fun x => hexDigit_isLower _ (Nat.mod_lt x (by norm_num))
  simp [toHexWord, h]

theorem hashStateHex_lower (st : Hash8) : (hashStateHex st).all isLowerHexDigit = true := by
  simp [hashStateHex, List.all_append, toHexWord_lower]

theorem utf8EncodeChar_length_pos (c : Char) : 1 ≤ (utf8EncodeChar c).length := by
  simp only [utf8EncodeChar]
  split_ifs <;> simp

theorem utf8EncodeChar_length_two (c : Char) (h : 128 ≤ c.toNat) :
    2 ≤ (utf8EncodeChar c).length := by
  simp only [utf8EncodeChar]
  split_ifs with h1 h2 h3 <;> first | omega | simp

theorem length_le_utf8EncodeList (cs : List Char) : cs.length ≤ (utf8EncodeList cs).length := by
  induction cs with
  | nil => exact Nat.le_refl 0
  | cons c cs ih =>
    simp only [utf8EncodeList, List.length_append, List.length_cons]
    have h1 := utf8EncodeChar_length_pos c
    omega

theorem multibyte_lt_utf8EncodeList (cs : List Char) (h : ∃ c ∈ cs, 128 ≤ c.toNat) :
    cs.length < (utf8EncodeList cs).length := by
  induction cs with
  | nil => simp at h
  | cons c cs ih =>
    simp only [utf8EncodeList, List.length_append, List.length_cons]
    by_cases hc : 128 ≤ c.toNat
    · have h1 := utf8EncodeChar_length_two c hc
      have h2 := length_le_utf8EncodeList cs
      omega
    · rcases h with ⟨d, hd, hge⟩
      rcases List.mem_cons.mp hd with rfl | hmem
      · exact absurd hge hc
      · have h1 := utf8EncodeChar_length_pos c
        have h2 := ih ⟨d, hmem, hge⟩
        omega

theorem segStarts_mem (hay : List Char) : ∀ needle, segStarts hay needle = true →
    ∀ x ∈ needle, x ∈ hay := by
  induction hay with
  | nil =>
    intro needle h x hx
    cases needle with
    | nil => simp at hx
    | cons b bs => simp [segStarts] at h
  | cons a as ih =>
    intro needle h x hx
    cases needle with
    | nil => simp at hx
    | cons b bs =>
      simp only [segStarts, Bool.and_eq_true, beq_iff_eq] at h
      rcases List.mem_cons.mp hx with rfl | hmem
      · simp [h.1]
      · exact List.mem_cons_of_mem a (ih bs h.2 x hmem)

theorem containsSeg_mem (needle hay : List Char) (h : containsSeg hay needle = true) :
    ∀ x ∈ needle, x ∈ hay := by
  induction hay with
  | nil =>
    intro x hx
    cases needle with
    | nil => simp at hx
    | cons b bs => simp [containsSeg, List.isEmpty] at h
  | cons a as ih =>
    intro x hx
    simp only [containsSeg, Bool.or_eq_true] at h
    rcases h with h | h
    · exact segStarts_mem (a :: as) needle h x hx
    · exact List.mem_cons_of_mem a (ih h x hx)

theorem maskInput_data (s : String) : (maskInput s).data = List.replicate s.length '*' := rfl

theorem maskInput_all_star (s : String) :
    (maskInput s).data.all (fun c => c == '*') = true := by
  rw [List.all_eq_true]
  intro c hc
  rw [maskInput_data] at hc
  simp [List.eq_of_mem_replicate hc]

theorem maskInput_length (s : String) : (maskInput s).length = s.length :=
  List.length_replicate _ _

theorem mask_contains_imp_all_star (s : String)
    (h : containsSeg (maskInput s).data s.data = true) :
    s.data.all (fun c => c == '*') = true := by
  rw [List.all_eq_true]
  intro c hc
  have hmem := containsSeg_mem s.data (maskInput s).data h c hc
  rw [maskInput_data] at hmem
  simp [List.eq_of_mem_replicate hmem]

/-! ## Reference test vectors (FIPS 180-4 / well-known digests),
checking the embedded SHA-256 and UTF-8 encoder against the literature. -/

theorem sha256_empty_vector :
    hashString "" = "e3b0c44298fc1c149afbf4c8996fb92427ae41e4649b934ca495991b7852b855" := by rfl

theorem sha256_hello_vector :
    hashString "hello" = "2cf24dba5fb0a30e26e83b2ac5b9e29e1b161e5c1fa7425e73043362938b9824" := by rfl

theorem sha256_abc_vector :
    hashString "abc" = "ba7816bf8f01cfea414140de5dae2223b00361a396177a9cb410ff61f20015ad" := by rfl

theorem sha256_two_block_vector :
    hashString "abcdbcdecdefdefgefghfghighijhijkijkljklmklmnlmnomnopnopq" =
      "248d6a61d20638b8e5c026930c3e6039a33ce45964ff2167f6ecedd419db06c1" := by rfl

theorem utf8_multibyte_vector : utf8Encode "é" = [195, 169] := by rfl

/-! ## Claim theorems -/

/-- C1: for every input string `s`, the digest the `/hash` endpoint returns is
the SHA-256 digest of the UTF-8 byte encoding of `s`, rendered as exactly 64
lowercase hexadecimal characters. -/
theorem hash_of_any_string (s : String) :
    bodyFieldOf (generate_hash (Json.obj [("text", Json.str s)])) "hash" =
      some (Json.str (sha256Hex (utf8Encode s)))
    ∧ (sha256Hex (utf8Encode s)).length = 64
    ∧ (sha256Hex (utf8Encode s)).data.all isLowerHexDigit = true :=
  ⟨rfl, sha256Hex_length _, hashStateHex_lower _⟩

/-- C2: `POST /hash` with body `{}` returns status 200 with exactly the record
`{"input": "", "hash": "e3b0c44298fc1c149afbf4c8996fb92427ae41e4649b934ca495991b7852b855",
"algorithm": "SHA256"}`, the hash being the (reference-computed) SHA-256 digest
of the empty string. -/
theorem hash_empty_object_response :
    generate_hash (Json.obj []) = Except.ok
      { response :=
          ⟨200, Json.obj [("input", Json.str ""),
            ("hash", Json.str "e3b0c44298fc1c149afbf4c8996fb92427ae41e4649b934ca495991b7852b855"),
            ("algorithm", Json.str "SHA256")]⟩
        spanAttributes := [("input.length", SpanValue.natVal 0),
                           ("hash.algorithm", SpanValue.strVal "SHA256")]
        logs := ["Generating hash for input:  (length: 0)",
                 "Generated hash: e3b0c44298fc1c14..."] } := by rfl

/-- C3: every JSON-object body without a `"text"` key is handled without
failure: it behaves exactly like the empty object, returning a 200 response
whose input defaulted to the empty string. -/
theorem hash_missing_text_defaults (fields : List (String × Json))
    (h : lookupField fields "text" = none) :
    generate_hash (Json.obj fields) = generate_hash (Json.obj [])
    ∧ invStatusOf (generate_hash (Json.obj fields)) = some 200
    ∧ bodyFieldOf (generate_hash (Json.obj fields)) "input" = some (Json.str "") := by
  have key : generate_hash (Json.obj fields) = generate_hash (Json.obj []) := by
    simp only [generate_hash]
    rw [h]
    rfl
  refine ⟨key, ?_, ?_⟩ <;> rw [key] <;> rfl

theorem hash_missing_text_defaults_witness :
    lookupField [("foo", Json.num 3)] "text" = none
    ∧ invStatusOf (generate_hash (Json.obj [("foo", Json.num 3)])) = some 200 :=
  ⟨rfl, (hash_missing_text_defaults [("foo", Json.num 3)] rfl).2.1⟩

/-- C4: `GET /health` returns status 200 with body `{"status": "healthy"}` for
every telemetry configuration state, and any two configuration states yield the
identical health response. -/
theorem health_always_healthy (cfg cfg2 : BootstrapState) :
    handleRequest cfg Route.healthRoute =
      Except.ok ⟨200, Json.obj [("status", Json.str "healthy")]⟩
    ∧ handleRequest cfg Route.healthRoute = handleRequest cfg2 Route.healthRoute :=
  ⟨rfl, rfl⟩

/-- C5: the hash endpoint is deterministic and idempotent — two invocations
with the same `text` value yield identical response records and identical hash
values. -/
theorem hash_idempotent (t1 t2 : String) (h : t1 = t2) :
    generate_hash (Json.obj [("text", Json.str t1)]) =
      generate_hash (Json.obj [("text", Json.str t2)])
    ∧ bodyFieldOf (generate_hash (Json.obj [("text", Json.str t1)])) "hash" =
      bodyFieldOf (generate_hash (Json.obj [("text", Json.str t2)])) "hash" := by
  subst h
  exact ⟨rfl, rfl⟩

theorem hash_idempotent_witness :
    ("hello" : String) = "hello"
    ∧ generate_hash (Json.obj [("text", Json.str "hello")]) =
        generate_hash (Json.obj [("text", Json.str "hello")]) :=
  ⟨rfl, (hash_idempotent "hello" "hello" rfl).1⟩

/-- C6: the functional result of a request does not depend on the telemetry
configuration — any two exporter-endpoint values give the same response on
every route — and with no endpoint configured the service constructs no
exporters yet still serves `/hash` and `/health`. -/
theorem hash_independent_of_telemetry (e1 e2 : Option String) (r : Route) :
    handleRequest (bootstrap e1) r = handleRequest (bootstrap e2) r
    ∧ (bootstrap none).traceExporters = 0
    ∧ (bootstrap none).logExporters = 0
    ∧ (bootstrap none).metricExporters = 0
    ∧ respStatusOf (handleRequest (bootstrap none) (Route.hashRoute (Json.obj []))) = some 200
    ∧ handleRequest (bootstrap none) Route.healthRoute =
        Except.ok ⟨200, Json.obj [("status", Json.str "healthy")]⟩ := by
  refine ⟨?_, rfl, rfl, rfl, rfl, rfl⟩
  cases r <;> rfl

/-- C7: with no (truthy) exporter endpoint, the bootstrap constructs no trace,
log, or metric exporters, still installs a reader-free (no-op) meter provider,
instruments Flask, emits exactly the one export-disabled warning, attaches no
logging handler, and does not enable system-resource metrics. -/
theorem bootstrap_without_endpoint (e : Option String) (h : isTruthy e = false) :
    (bootstrap e).traceExporters = 0
    ∧ (bootstrap e).logExporters = 0
    ∧ (bootstrap e).metricExporters = 0
    ∧ (bootstrap e).meterProviderInstalled = true
    ∧ (bootstrap e).meterReaders = 0
    ∧ (bootstrap e).flaskInstrumented = true
    ∧ (bootstrap e).warnings = [exportDisabledWarning]
    ∧ (bootstrap e).loggingHandlerAttached = false
    ∧ (bootstrap e).systemMetricsInstrumented = false := by
  have hb : bootstrap e =
      { traceExporters := 0, logExporters := 0, metricExporters := 0,
        meterProviderInstalled := true, meterReaders := 0,
        loggingHandlerAttached := false, warnings := [exportDisabledWarning],
        infos := [], flaskInstrumented := true, systemMetricsInstrumented := false } := by
    unfold bootstrap
    rw [h]
    rfl
  rw [hb]
  exact ⟨rfl, rfl, rfl, rfl, rfl, rfl, rfl, rfl, rfl⟩

theorem bootstrap_without_endpoint_witness :
    isTruthy none = false ∧ (bootstrap none).warnings = [exportDisabledWarning] :=
  ⟨rfl, (bootstrap_without_endpoint none rfl).2.2.2.2.2.2.1⟩

/-- C8 counterexample: for the input `"*"` the masked rendering equals — and
hence contains — the input text, so the masked rendering does not "never
contain the input text". -/
theorem mask_contains_input_at_star :
    maskInput "*" = "*" ∧ containsSeg (maskInput "*").data ("*" : String).data = true :=
  ⟨rfl, rfl⟩

/-- C8 (amended): the masked rendering consists only of asterisks and has the
input's length; it contains the input text only when the input itself consists
entirely of asterisks; the response hash is the pure digest function applied to
the input, and the handler's log lines are exactly the two service-layer
messages (none from the digest computation). -/
theorem mask_is_asterisks (s : String) :
    (maskInput s).data.all (fun c => c == '*') = true
    ∧ (maskInput s).length = s.length
    ∧ (containsSeg (maskInput s).data s.data = true → s.data.all (fun c => c == '*') = true)
    ∧ bodyFieldOf (generate_hash (Json.obj [("text", Json.str s)])) "hash" =
        some (Json.str (hashString s))
    ∧ logsOf (generate_hash (Json.obj [("text", Json.str s)])) =
        some ["Generating hash for input: " ++ maskInput s ++ " (length: " ++
                toString s.length ++ ")",
              "Generated hash: " ++ (hashString s).take 16 ++ "..."] :=
  ⟨maskInput_all_star s, maskInput_length s, mask_contains_imp_all_star s, rfl, rfl⟩

theorem mask_is_asterisks_witness :
    containsSeg (maskInput "ab").data ("ab" : String).data = false
    ∧ (maskInput "*").length = 1
    ∧ ("*" : String).data.all (fun c => c == '*') = true :=
  ⟨rfl, (mask_is_asterisks "*").2.1, (mask_is_asterisks "*").2.2.1 rfl⟩

/-- C9: a JSON body that is not an object (null, boolean, number, string, or
array) makes the handler raise when it looks up `"text"` instead of defaulting
to the empty string. -/
theorem non_object_body_raises (b : Json) (h : isJsonObj b = false) :
    generate_hash b =
      Except.error "AttributeError: the JSON body is not an object and has no method get" := by
  cases b <;> first | rfl | simp [isJsonObj] at h

theorem non_object_body_raises_witness :
    isJsonObj Json.null = false
    ∧ generate_hash Json.null =
        Except.error "AttributeError: the JSON body is not an object and has no method get" :=
  ⟨rfl, non_object_body_raises Json.null rfl⟩

/-- C10: the `input.length` span attribute and the logged length equal the
input's character count, not its UTF-8 byte count, and for any input with a
multi-byte character the character count is strictly smaller than the number of
bytes actually hashed. -/
theorem recorded_length_is_char_count (s : String) :
    spanAttrOf (generate_hash (Json.obj [("text", Json.str s)])) "input.length" =
      some (SpanValue.natVal s.length)
    ∧ logsOf (generate_hash (Json.obj [("text", Json.str s)])) =
        some ["Generating hash for input: " ++ maskInput s ++ " (length: " ++
                toString s.length ++ ")",
              "Generated hash: " ++ (hashString s).take 16 ++ "..."]
    ∧ ((∃ c ∈ s.data, 128 ≤ c.toNat) → s.length < (utf8Encode s).length) := by
  refine ⟨rfl, rfl, fun h => ?_⟩
  exact multibyte_lt_utf8EncodeList s.data h

theorem recorded_length_is_char_count_witness :
    spanAttrOf (generate_hash (Json.obj [("text", Json.str "é")])) "input.length" =
      some (SpanValue.natVal (String.length "é"))
    ∧ String.length "é" < (utf8Encode "é").length := by
  have h := recorded_length_is_char_count "é"
  exact ⟨h.1, h.2.2 (by decide)⟩
